import Mathlib

/-!
Verification of the Laser-Tag-Free4All session controller
(`src/laser_tag_app.c`) against its natural-language specification.

The main loop, the input dispatch, the tag decoding callback and the
hit/fire/reload/scan handlers are shallowly embedded from the C source.
The `GameState` counter operations and the message-queue primitive live
outside the provided sources (`game_state.c` and the furi platform), so
they are modelled from the spec, as marked on each definition.
-/

/-- Modelled from the spec: `game_state.c` is not among the provided
sources.  Spec section 3: `health` in `[0,100]` starting at 100, `ammo` in
`[0, INITIAL_AMMO]`, `elapsed_time` monotonically increasing seconds. -/
structure GameState where
  health : Nat
  ammo : Nat
  elapsed_time : Nat
deriving DecidableEq, Repr

/-- Modelled from the spec: accessor `getAmmo()` of section 4.1. -/
def game_state_get_ammo (gs : GameState) : Nat := gs.ammo

/-- Modelled from the spec: accessor `getHealth()` of section 4.1. -/
def game_state_get_health (gs : GameState) : Nat := gs.health

/-- Modelled from the spec: `decreaseHealth(n)` subtracts `n` and clamps
at 0 (saturating arithmetic, spec section 4.1). -/
def game_state_decrease_health (gs : GameState) (n : Nat) : GameState :=
  { gs with health := gs.health - n }

/-- Modelled from the spec: `decreaseAmmo(n)` subtracts `n` and clamps
at 0 (saturating arithmetic, spec section 4.1). -/
def game_state_decrease_ammo (gs : GameState) (n : Nat) : GameState :=
  { gs with ammo := gs.ammo - n }

/-- Modelled from the spec: `increaseAmmo(n)` adds `n` and clamps at
`INITIAL_AMMO` (spec section 4.1).  The constant `INITIAL_AMMO` is kept
as an explicit parameter `A` because the spec fixes no numeric value. -/
def game_state_increase_ammo (A : Nat) (gs : GameState) (n : Nat) : GameState :=
  { gs with ammo := min (gs.ammo + n) A }

/-- Modelled from the spec: `updateTime(deltaSeconds)` advances the
elapsed-time counter (spec section 4.1). -/
def game_state_update_time (gs : GameState) (d : Nat) : GameState :=
  { gs with elapsed_time := gs.elapsed_time + d }

/-- Modelled from the spec: `isGameOver()` is true iff `health == 0`
(spec section 4.1). -/
def game_state_is_game_over (gs : GameState) : Bool := gs.health == 0

/-- Modelled from the spec: `reset()` restores all fields to their
initial values: health 100, ammo `INITIAL_AMMO` (parameter `A`),
elapsed time 0 (spec section 3). -/
def game_state_reset (A : Nat) (_gs : GameState) : GameState := ⟨100, A, 0⟩

/-- The infrared controller as visible to `laser_tag_app.c`: the only
field the session code reads directly is `processing_signal`
(declared in `infrared_controller.h`); the worker internals stay behind
the controller's functions and are treated as environment inputs. -/
structure IRController where
  processing_signal : Bool
deriving DecidableEq, Repr

/-- Logical input keys (from the platform's `InputKey`). -/
inductive InputKey
  | Up
  | Down
  | Right
  | Left
  | Ok
  | Back
deriving DecidableEq, Repr

/-- Input event types (from the platform's `InputType`). -/
inductive InputType
  | Press
  | Release
  | Short
  | Long
  | Repeat
deriving DecidableEq, Repr

/-- An input event as delivered by the platform. -/
structure InputEvent where
  key : InputKey
  type : InputType
deriving DecidableEq, Repr

/-- The notification sequences requested by `laser_tag_app.c`. -/
inductive NotifSeq
  | vibro1
  | shortBeep
  | blinkWhite100
  | error
  | success
deriving DecidableEq, Repr

/-- The session states (`LaserTagState` of `laser_tag_app.h`). -/
inductive LaserTagState
  | SplashScreen
  | Game
  | GameOver
deriving DecidableEq, Repr

/-- Observable effects emitted by one main-loop iteration, in program
order: calls into the infrared controller, the tag reader, the delay
primitive and the notification subsystem.  `boardStatus b` records the
unconditional `update_infrared_board_status` call, with `b` telling
whether the controller pointer passed was non-null. -/
inductive Effect
  | boardStatus (hasController : Bool)
  | irReceive
  | irSend
  | irPause
  | irResume
  | readerStart
  | readerStop
  | delayMs (ms : Nat)
  | notif (seq : NotifSeq)
deriving DecidableEq, Repr

/-- Capacity of the input event queue, from
`furi_message_queue_alloc(8, sizeof(InputEvent))` in
`laser_tag_app_alloc` (src/laser_tag_app.c:150). -/
def EVENT_QUEUE_CAPACITY : Nat := 8

/-- The platform queue-put primitive, modelled from its documented
semantics at timeout 0: when the queue is full the put fails
immediately (the event is dropped) instead of blocking or
overwriting. -/
def furi_message_queue_put (cap : Nat) (q : List InputEvent) (e : InputEvent) : List InputEvent :=
  if q.length < cap then q ++ [e] else q

/-- `laser_tag_app_input_callback` (src/laser_tag_app.c:48): enqueues
the incoming event with timeout 0 on the capacity-8 queue, ignoring the
put's return status. -/
def laser_tag_app_input_callback (q : List InputEvent) (e : InputEvent) : List InputEvent :=
  furi_message_queue_put EVENT_QUEUE_CAPACITY q e

/-- Conversion of a C `int` value to `uint16_t`, as performed by the
assignment `uint16_t delta_ammo = INITIAL_AMMO - ammo;` in
`tag_callback`. -/
def u16ofInt (x : Int) : Nat := (x % 65536).toNat

/-- `tag_callback` (src/laser_tag_app.c:100): rejects payloads whose
length differs from 5, payloads whose first two bytes are not
`0x13 0x37`, and unknown action codes; on action code `0xFD` it adds
`data[4]` clamped to the `uint16_t` difference `INITIAL_AMMO - ammo`.
`A` is the `INITIAL_AMMO` constant. -/
def tag_callback (A : Nat) (data : List Nat) (gs : GameState) : GameState :=
  match data with
  | [d0, d1, _d2, d3, d4] =>
    if d0 ≠ 0x13 ∨ d1 ≠ 0x37 then gs
    else if d3 = 0xFD then
      let max_delta_ammo := d4
      let ammo := game_state_get_ammo gs
      let delta0 := u16ofInt ((A : Int) - (ammo : Int))
      let delta_ammo := if delta0 > max_delta_ammo then max_delta_ammo else delta0
      game_state_increase_ammo A gs delta_ammo
    else gs
  | _ => gs

/-- One batch of tag payloads decoded by the reader during a single
scan sub-interval, applied through `tag_callback` in arrival order. -/
def apply_tag_batch (A : Nat) (ps : List (List Nat)) (gs : GameState) : GameState :=
  ps.foldl (fun g p => tag_callback A p g) gs

/-- The `for(int i = 0; i < 30; i++)` polling loop of the Up-key scan
window (src/laser_tag_app.c:347): each iteration delays 100 ms (during
which the reader may deliver tag payloads, modelled by the head batch of
`tags`) and breaks as soon as the ammo differs from `a0`.  Returns the
final game state and the number of iterations entered (that is, the
number of 100 ms delays executed). -/
def scan_loop (A a0 : Nat) : Nat → List (List (List Nat)) → GameState → GameState × Nat
  | 0, _, gs => (gs, 0)
  | fuel + 1, tags, gs =>
    if game_state_get_ammo (apply_tag_batch A (tags.headD []) gs) ≠ a0 then
      (apply_tag_batch A (tags.headD []) gs, 1)
    else
      ((scan_loop A a0 fuel tags.tail (apply_tag_batch A (tags.headD []) gs)).1,
        (scan_loop A a0 fuel tags.tail (apply_tag_batch A (tags.headD []) gs)).2 + 1)

/-- The session-controller state: the fields of `struct LaserTagApp`
that carry game logic (`state`, `game_state`, `ir_controller`,
`need_redraw`), plus the main loop's local variables `event` (which
persists across iterations and is read even on iterations that received
no fresh event) and `running`. -/
structure AppState where
  state : LaserTagState
  game_state : GameState
  ir_controller : Option IRController
  lastEvent : InputEvent
  need_redraw : Bool
  running : Bool
deriving DecidableEq, Repr

/-- The environment inputs consumed by one main-loop iteration:
the fresh input event dequeued this tick (if any), whether
`infrared_controller_receive` reports a pending hit, whether
`infrared_controller_alloc` succeeds, and the tag payload batches
delivered during each sub-interval of a scan window. -/
structure TickInput where
  fresh : Option InputEvent
  hitPending : Bool
  allocOk : Bool
  scanTags : List (List (List Nat))
deriving DecidableEq, Repr

/-- `laser_tag_app_fire` (src/laser_tag_app.c:210): no-op when the
controller pointer is null or a hit is mid-processing; otherwise sends,
decrements ammo by 1 (saturating) and requests beep and blink
feedback. -/
def laser_tag_app_fire (s : AppState) : AppState × List Effect :=
  match s.ir_controller with
  | none => (s, [])
  | some c =>
    if c.processing_signal then (s, [])
    else
      ({ s with game_state := game_state_decrease_ammo s.game_state 1, need_redraw := true },
        [Effect.irSend, Effect.notif NotifSeq.shortBeep, Effect.notif NotifSeq.blinkWhite100])

/-- `laser_tag_app_handle_hit` (src/laser_tag_app.c:236): decreases
health by 10, requests vibration feedback, and on game over requests
the error sequence and switches to the GameOver screen. -/
def laser_tag_app_handle_hit (s : AppState) : AppState × List Effect :=
  let s1 := { s with game_state := game_state_decrease_health s.game_state 10 }
  if game_state_is_game_over s1.game_state then
    ({ s1 with state := LaserTagState.GameOver, need_redraw := true },
      [Effect.notif NotifSeq.vibro1, Effect.notif NotifSeq.error])
  else (s1, [Effect.notif NotifSeq.vibro1])

/-- `laser_tag_app_enter_game_state` (src/laser_tag_app.c:254): switches
to the Game state, resets the game state, frees any previous controller
and allocates a fresh one; returns false when allocation fails
(`allocOk` models the allocation outcome). -/
def laser_tag_app_enter_game_state (A : Nat) (allocOk : Bool) (s : AppState) : AppState × Bool :=
  let s1 := { s with
    state := LaserTagState.Game,
    game_state := game_state_reset A s.game_state,
    ir_controller := none }
  if allocOk then ({ s1 with ir_controller := some ⟨false⟩, need_redraw := true }, true)
  else (s1, false)

/-- The input-dispatch block of the main loop
(src/laser_tag_app.c:300-367), reached only for a freshly dequeued
press or repeat event `e`. -/
def laser_tag_app_dispatch (A : Nat) (inp : TickInput) (e : InputEvent) (s : AppState) :
    AppState × List Effect :=
  match s.state with
  | LaserTagState.SplashScreen =>
    match e.key with
    | InputKey.Ok =>
      let r := laser_tag_app_enter_game_state A inp.allocOk s
      if r.2 then (r.1, []) else ({ r.1 with running := false }, [])
    | InputKey.Back => ({ s with running := false }, [])
    | _ => (s, [])
  | LaserTagState.GameOver =>
    if e.key = InputKey.Ok then
      ({ s with
          game_state := game_state_reset A s.game_state,
          state := LaserTagState.SplashScreen,
          need_redraw := true }, [])
    else (s, [])
  | LaserTagState.Game =>
    if e.key = InputKey.Down ∧ game_state_get_ammo s.game_state = 0 then
      ({ s with game_state := game_state_increase_ammo A s.game_state A, need_redraw := true }, [])
    else
      match e.key with
      | InputKey.Back => ({ s with running := false }, [])
      | InputKey.Ok => laser_tag_app_fire s
      | InputKey.Up =>
        let a0 := game_state_get_ammo s.game_state
        let r := scan_loop A a0 30 inp.scanTags s.game_state
        let fin := Effect.notif
          (if game_state_get_ammo r.1 = a0 then NotifSeq.error else NotifSeq.success)
        ({ s with game_state := r.1, need_redraw := true },
          [Effect.notif NotifSeq.shortBeep, Effect.irPause, Effect.readerStart]
            ++ List.replicate r.2 (Effect.delayMs 100)
            ++ [Effect.readerStop, Effect.irResume, fin])
      | _ => (s, [])

/-- The tail of each main-loop iteration (src/laser_tag_app.c:374-394):
in the Game state with a non-null controller, poll `receive()` and
handle a pending hit, then re-check game over; otherwise, in the
GameOver state, re-examine the (possibly stale) `event` variable `e`
and restart on key OK. -/
def laser_tag_app_loop_tail (A : Nat) (inp : TickInput) (e : InputEvent) (s : AppState) :
    AppState × List Effect :=
  if s.state = LaserTagState.Game ∧ s.ir_controller.isSome then
    let r1 := if inp.hitPending then laser_tag_app_handle_hit s else (s, [])
    let r2 :=
      if game_state_is_game_over r1.1.game_state then
        ({ r1.1 with state := LaserTagState.GameOver, need_redraw := true },
          [Effect.notif NotifSeq.error])
      else (r1.1, [])
    (r2.1, Effect.irReceive :: (r1.2 ++ r2.2))
  else if s.state = LaserTagState.GameOver then
    if e.key = InputKey.Ok then
      ({ s with
          game_state := game_state_reset A s.game_state,
          state := LaserTagState.SplashScreen,
          need_redraw := true }, [])
    else (s, [])
  else (s, [])

/-- One iteration of the main loop of `laser_tag_app`
(src/laser_tag_app.c:292-404): unconditional board-status poll, queue
read with the `event` variable keeping its previous value on timeout,
dispatch of fresh press/repeat events, then the loop tail. -/
def laser_tag_app_tick (A : Nat) (inp : TickInput) (s : AppState) : AppState × List Effect :=
  let bs := Effect.boardStatus s.ir_controller.isSome
  let e := inp.fresh.getD s.lastEvent
  let r1 :=
    match inp.fresh with
    | some ev =>
      if ev.type = InputType.Press ∨ ev.type = InputType.Repeat then
        laser_tag_app_dispatch A inp ev s
      else (s, [])
    | none => (s, [])
  let s1 := { r1.1 with lastEvent := e }
  let r2 := laser_tag_app_loop_tail A inp e s1
  (r2.1, bs :: (r1.2 ++ r2.2))

/-! ## Helper lemmas -/

theorem tag_callback_health (A : Nat) (p : List Nat) (gs : GameState) :
    (tag_callback A p gs).health = gs.health := by
  rcases p with _ | ⟨d0, _ | ⟨d1, _ | ⟨d2, _ | ⟨d3, _ | ⟨d4, _ | ⟨d5, rest⟩⟩⟩⟩⟩⟩ <;>
    simp [tag_callback, game_state_increase_ammo] <;> split_ifs <;> rfl

theorem apply_tag_batch_health (A : Nat) (ps : List (List Nat)) (gs : GameState) :
    (apply_tag_batch A ps gs).health = gs.health := by
  induction ps generalizing gs with
  | nil => rfl
  | cons p ps ih =>
    simp only [apply_tag_batch, List.foldl_cons] at *
    rw [ih, tag_callback_health]

theorem scan_loop_health (A a0 fuel : Nat) (tags : List (List (List Nat))) (gs : GameState) :
    (scan_loop A a0 fuel tags gs).1.health = gs.health := by
  induction fuel generalizing tags gs with
  | zero => rfl
  | succ f ih =>
    by_cases hch : game_state_get_ammo (apply_tag_batch A (tags.headD []) gs) ≠ a0
    · simp only [scan_loop, if_pos hch]
      exact apply_tag_batch_health A _ gs
    · simp only [scan_loop, if_neg hch]
      have h1 := ih tags.tail (apply_tag_batch A (tags.headD []) gs)
      exact h1.trans (apply_tag_batch_health A _ gs)

theorem scan_loop_count_le (A a0 fuel : Nat) (tags : List (List (List Nat))) (gs : GameState) :
    (scan_loop A a0 fuel tags gs).2 ≤ fuel := by
  induction fuel generalizing tags gs with
  | zero => exact Nat.le_refl 0
  | succ f ih =>
    by_cases hch : game_state_get_ammo (apply_tag_batch A (tags.headD []) gs) ≠ a0
    · simp only [scan_loop, if_pos hch]
      exact Nat.succ_le_succ (Nat.zero_le f)
    · simp only [scan_loop, if_neg hch]
      exact Nat.succ_le_succ (ih tags.tail (apply_tag_batch A (tags.headD []) gs))

theorem scan_loop_early_change (A a0 fuel : Nat) (tags : List (List (List Nat)))
    (gs : GameState) (h : (scan_loop A a0 fuel tags gs).2 < fuel) :
    game_state_get_ammo (scan_loop A a0 fuel tags gs).1 ≠ a0 := by
  induction fuel generalizing tags gs with
  | zero => exact absurd h (Nat.not_lt_zero _)
  | succ f ih =>
    by_cases hch : game_state_get_ammo (apply_tag_batch A (tags.headD []) gs) ≠ a0
    · simp only [scan_loop, if_pos hch]
      exact hch
    · simp only [scan_loop, if_neg hch] at h ⊢
      exact ih tags.tail (apply_tag_batch A (tags.headD []) gs) (Nat.lt_of_succ_lt_succ h)

/-! ## Claims -/

/-- C9: the input event queue has capacity 8 and the input callback
enqueues with timeout 0, so an event arriving while 8 events are queued
is silently dropped; below capacity it is appended without overwriting
anything. -/
theorem input_callback_drops_when_full (q : List InputEvent) (e : InputEvent) :
    EVENT_QUEUE_CAPACITY = 8 ∧
    (8 ≤ q.length → laser_tag_app_input_callback q e = q) ∧
    (q.length < 8 → laser_tag_app_input_callback q e = q ++ [e]) := by
  refine ⟨rfl, ?_, ?_⟩
  · intro h
    unfold laser_tag_app_input_callback furi_message_queue_put EVENT_QUEUE_CAPACITY
    rw [if_neg (by omega)]
  · intro h
    unfold laser_tag_app_input_callback furi_message_queue_put EVENT_QUEUE_CAPACITY
    rw [if_pos (by omega)]

/-- Witness for C9 at a concrete full queue. -/
theorem input_callback_drops_when_full_witness :
    8 ≤ (List.replicate 8 ({ key := InputKey.Ok, type := InputType.Press } : InputEvent)).length ∧
    laser_tag_app_input_callback
        (List.replicate 8 { key := InputKey.Ok, type := InputType.Press })
        { key := InputKey.Back, type := InputType.Press }
      = List.replicate 8 { key := InputKey.Ok, type := InputType.Press } :=
  ⟨by decide,
    (input_callback_drops_when_full
      (List.replicate 8 { key := InputKey.Ok, type := InputType.Press })
      { key := InputKey.Back, type := InputType.Press }).2.1 (by decide)⟩

/-- C2: a tag payload whose length is not 5, or whose first two bytes
are not `0x13 0x37`, or whose action code byte is not `0xFD`, leaves the
game state (ammo, health and elapsed time) completely unchanged. -/
theorem tag_callback_ignores_invalid (A : Nat) (data : List Nat) (gs : GameState)
    (h : ¬(data.length = 5 ∧ data.getD 0 0 = 0x13 ∧ data.getD 1 0 = 0x37 ∧
      data.getD 3 0 = 0xFD)) :
    tag_callback A data gs = gs := by
  rcases data with _ | ⟨d0, _ | ⟨d1, _ | ⟨d2, _ | ⟨d3, _ | ⟨d4, _ | ⟨d5, rest⟩⟩⟩⟩⟩⟩ <;>
    try rfl
  simp only [List.length_cons, List.length_nil, List.getD_cons_zero, List.getD_cons_succ,
    and_true, true_and, not_and] at h
  simp only [tag_callback]
  split_ifs with h1 h2 h3 <;>
    first
      | rfl
      | (exfalso; push_neg at h1; exact h h1.1 h1.2 h2)

/-- Witness for C2 at a concrete 3-byte payload. -/
theorem tag_callback_ignores_invalid_witness :
    ¬(([1, 2, 3] : List Nat).length = 5 ∧ ([1, 2, 3] : List Nat).getD 0 0 = 0x13 ∧
        ([1, 2, 3] : List Nat).getD 1 0 = 0x37 ∧ ([1, 2, 3] : List Nat).getD 3 0 = 0xFD) ∧
    tag_callback 100 [1, 2, 3] ⟨100, 50, 0⟩ = ⟨100, 50, 0⟩ :=
  ⟨by decide, tag_callback_ignores_invalid 100 [1, 2, 3] ⟨100, 50, 0⟩ (by decide)⟩

/-- C1: a 5-byte payload `13 37 _ FD amt` increases ammo by exactly
`min amt (INITIAL_AMMO - ammo)`; in particular ammo `A - 3` with amount
10 refills to exactly `A`, and ammo `A` stays unchanged. -/
theorem tag_callback_refill_clamps (A b2 amt : Nat) (gs : GameState)
    (hA : A ≤ 65535) (ham : gs.ammo ≤ A) :
    (tag_callback A [0x13, 0x37, b2, 0xFD, amt] gs).ammo
        = gs.ammo + min amt (A - gs.ammo) ∧
    (gs.ammo = A - 3 → 3 ≤ A → amt = 10 →
      (tag_callback A [0x13, 0x37, b2, 0xFD, amt] gs).ammo = A) ∧
    (gs.ammo = A → (tag_callback A [0x13, 0x37, b2, 0xFD, amt] gs).ammo = A) := by
  have hu : u16ofInt ((A : Int) - ((game_state_get_ammo gs : Nat) : Int)) = A - gs.ammo := by
    unfold u16ofInt game_state_get_ammo
    omega
  have hmain : (tag_callback A [0x13, 0x37, b2, 0xFD, amt] gs).ammo
      = gs.ammo + min amt (A - gs.ammo) := by
    simp only [tag_callback, hu, game_state_increase_ammo]
    norm_num
    split_ifs with hif <;> omega
  refine ⟨hmain, ?_, ?_⟩
  · intro h3 hA3 h10
    rw [hmain]
    omega
  · intro hfull
    rw [hmain]
    omega

/-- Witness for C1: ammo 97 of 100 plus amount 10 refills to exactly 100. -/
theorem tag_callback_refill_clamps_witness :
    (100 ≤ 65535 ∧ (⟨100, 97, 0⟩ : GameState).ammo ≤ 100) ∧
    (tag_callback 100 [0x13, 0x37, 0, 0xFD, 10] ⟨100, 97, 0⟩).ammo
      = (⟨100, 97, 0⟩ : GameState).ammo + min 10 (100 - (⟨100, 97, 0⟩ : GameState).ammo) :=
  ⟨⟨by decide, by decide⟩,
    (tag_callback_refill_clamps 100 0 10 ⟨100, 97, 0⟩ (by decide) (by decide)).1⟩

/-- C3: on an Active-state tick with a pending hit, health drops by
exactly 10 (saturating at 0), the session moves to GameOver on that tick
iff the resulting health is 0, and `isGameOver` holds for the resulting
state iff its health is 0. -/
theorem hit_drops_health_ten_and_game_over_iff_zero (A : Nat) (s : AppState)
    (c : IRController) (inp : TickInput) (hst : s.state = LaserTagState.Game)
    (hir : s.ir_controller = some c) (hf : inp.fresh = none)
    (hh : inp.hitPending = true) :
    (laser_tag_app_tick A inp s).1.game_state.health = s.game_state.health - 10 ∧
    ((laser_tag_app_tick A inp s).1.state = LaserTagState.GameOver ↔
      s.game_state.health - 10 = 0) ∧
    (game_state_is_game_over (laser_tag_app_tick A inp s).1.game_state = true ↔
      (laser_tag_app_tick A inp s).1.game_state.health = 0) := by
  by_cases hgo : s.game_state.health - 10 = 0 <;>
    simp [laser_tag_app_tick, laser_tag_app_loop_tail, laser_tag_app_handle_hit,
      game_state_is_game_over, game_state_decrease_health, hf, hh, hst, hir, hgo]

/-- Witness for C3: health 30 in the Game state with a pending hit drops
to 20 on the tick. -/
theorem hit_drops_health_ten_witness :
    ((⟨LaserTagState.Game, ⟨30, 5, 7⟩, some ⟨false⟩, ⟨InputKey.Back, InputType.Release⟩,
        false, true⟩ : AppState).state = LaserTagState.Game ∧
      (⟨LaserTagState.Game, ⟨30, 5, 7⟩, some ⟨false⟩, ⟨InputKey.Back, InputType.Release⟩,
        false, true⟩ : AppState).ir_controller = some ⟨false⟩ ∧
      (⟨none, true, true, []⟩ : TickInput).fresh = none ∧
      (⟨none, true, true, []⟩ : TickInput).hitPending = true) ∧
    (laser_tag_app_tick 100 ⟨none, true, true, []⟩
        ⟨LaserTagState.Game, ⟨30, 5, 7⟩, some ⟨false⟩, ⟨InputKey.Back, InputType.Release⟩,
          false, true⟩).1.game_state.health = 30 - 10 :=
  ⟨⟨rfl, rfl, rfl, rfl⟩,
    (hit_drops_health_ten_and_game_over_iff_zero 100
      ⟨LaserTagState.Game, ⟨30, 5, 7⟩, some ⟨false⟩, ⟨InputKey.Back, InputType.Release⟩,
        false, true⟩
      ⟨false⟩ ⟨none, true, true, []⟩ rfl rfl rfl rfl).1⟩

/-- Counterexample to C4: in the Game state with health 10 and a pending
hit, the tick emits the failure sequence twice, not exactly once — once
inside `laser_tag_app_handle_hit` and once at the loop's game-over
re-check, which still runs because the enclosing Game-state branch was
entered before the hit was handled. -/
theorem game_over_error_played_twice_counterexample :
    ((laser_tag_app_tick 100 ⟨none, true, true, []⟩
        ⟨LaserTagState.Game, ⟨10, 5, 7⟩, some ⟨false⟩, ⟨InputKey.Back, InputType.Release⟩,
          false, true⟩).2.count (Effect.notif NotifSeq.error) = 2) ∧
    ¬((laser_tag_app_tick 100 ⟨none, true, true, []⟩
        ⟨LaserTagState.Game, ⟨10, 5, 7⟩, some ⟨false⟩, ⟨InputKey.Back, InputType.Release⟩,
          false, true⟩).2.count (Effect.notif NotifSeq.error) = 1) := by
  decide

/-- C4 amended: on a quiet Active-state tick with a pending hit, the
failure sequence is emitted exactly twice when the hit causes the
Active-to-GameOver transition (once by the hit handler and once by the
same tick's game-over re-check), and not at all otherwise; the
transition happens iff the decremented health is 0. -/
theorem game_over_error_count_per_transition (A : Nat) (s : AppState)
    (c : IRController) (inp : TickInput) (hst : s.state = LaserTagState.Game)
    (hir : s.ir_controller = some c) (hf : inp.fresh = none)
    (hh : inp.hitPending = true) :
    (laser_tag_app_tick A inp s).2.count (Effect.notif NotifSeq.error)
        = (if s.game_state.health - 10 = 0 then 2 else 0) ∧
    ((laser_tag_app_tick A inp s).1.state = LaserTagState.GameOver ↔
      s.game_state.health - 10 = 0) := by
  by_cases hgo : s.game_state.health - 10 = 0 <;>
    simp [laser_tag_app_tick, laser_tag_app_loop_tail, laser_tag_app_handle_hit,
      game_state_is_game_over, game_state_decrease_health, hf, hh, hst, hir, hgo,
      List.count_cons, List.count_append]

/-- Witness for C4 (amended): at health 10 the transition tick counts
two failure sequences. -/
theorem game_over_error_count_witness :
    ((⟨LaserTagState.Game, ⟨10, 5, 7⟩, some ⟨false⟩, ⟨InputKey.Up, InputType.Release⟩,
        false, true⟩ : AppState).state = LaserTagState.Game ∧
      (⟨LaserTagState.Game, ⟨10, 5, 7⟩, some ⟨false⟩, ⟨InputKey.Up, InputType.Release⟩,
        false, true⟩ : AppState).ir_controller = some ⟨false⟩ ∧
      (⟨none, true, true, []⟩ : TickInput).fresh = none ∧
      (⟨none, true, true, []⟩ : TickInput).hitPending = true) ∧
    (laser_tag_app_tick 100 ⟨none, true, true, []⟩
        ⟨LaserTagState.Game, ⟨10, 5, 7⟩, some ⟨false⟩, ⟨InputKey.Up, InputType.Release⟩,
          false, true⟩).2.count (Effect.notif NotifSeq.error)
      = (if (10 : Nat) - 10 = 0 then 2 else 0) :=
  ⟨⟨rfl, rfl, rfl, rfl⟩,
    (game_over_error_count_per_transition 100
      ⟨LaserTagState.Game, ⟨10, 5, 7⟩, some ⟨false⟩, ⟨InputKey.Up, InputType.Release⟩,
        false, true⟩
      ⟨false⟩ ⟨none, true, true, []⟩ rfl rfl rfl rfl).1⟩

/-- C5 failing input: in the GameOver state, on a tick with no fresh
input event at all, the loop tail re-reads the stale `event` variable
(src/laser_tag_app.c:387-394); if the last event ever received had key
OK (for example the OK press that fired the final shot), the session
resets to the splash screen although no fresh OK press or repeat arrived
on this tick. -/
theorem game_over_stale_event_resets_without_input :
    (⟨none, false, true, []⟩ : TickInput).fresh = none ∧
    (laser_tag_app_tick 100 ⟨none, false, true, []⟩
        ⟨LaserTagState.GameOver, ⟨0, 5, 7⟩, some ⟨false⟩, ⟨InputKey.Ok, InputType.Press⟩,
          false, true⟩).1.state = LaserTagState.SplashScreen ∧
    (laser_tag_app_tick 100 ⟨none, false, true, []⟩
        ⟨LaserTagState.GameOver, ⟨0, 5, 7⟩, some ⟨false⟩, ⟨InputKey.Ok, InputType.Press⟩,
          false, true⟩).1.game_state = game_state_reset 100 ⟨0, 5, 7⟩ := by
  decide

/-- C6: on an Active-state OK press, a mid-processing hit makes the fire
a complete no-op (game state untouched, no transmission, no feedback);
otherwise the send happens and ammo drops by 1, staying 0 when it was
already 0. -/
theorem fire_debounce_and_saturating_ammo (A : Nat) (s : AppState) (c : IRController)
    (inp : TickInput) (hst : s.state = LaserTagState.Game)
    (hir : s.ir_controller = some c)
    (hf : inp.fresh = some ⟨InputKey.Ok, InputType.Press⟩)
    (hh : inp.hitPending = false) (hhp : s.game_state.health ≠ 0) :
    (c.processing_signal = true →
      (laser_tag_app_tick A inp s).1.game_state = s.game_state ∧
      (laser_tag_app_tick A inp s).2 = [Effect.boardStatus true, Effect.irReceive]) ∧
    (c.processing_signal = false →
      Effect.irSend ∈ (laser_tag_app_tick A inp s).2 ∧
      (laser_tag_app_tick A inp s).1.game_state.ammo = s.game_state.ammo - 1 ∧
      (s.game_state.ammo = 0 → (laser_tag_app_tick A inp s).1.game_state.ammo = 0)) := by
  constructor
  · intro hp
    simp [laser_tag_app_tick, laser_tag_app_dispatch, laser_tag_app_fire,
      laser_tag_app_loop_tail, game_state_is_game_over, hf, hh, hst, hir, hp, hhp]
  · intro hp
    simp [laser_tag_app_tick, laser_tag_app_dispatch, laser_tag_app_fire,
      laser_tag_app_loop_tail, game_state_is_game_over, game_state_decrease_ammo,
      game_state_get_ammo, hf, hh, hst, hir, hp, hhp]
    omega

/-- C7: on an Active-state Down press, ammo 0 reloads to exactly
`INITIAL_AMMO`, while nonzero ammo leaves the whole game state
unchanged. -/
theorem down_reloads_only_when_empty (A : Nat) (s : AppState) (inp : TickInput)
    (hst : s.state = LaserTagState.Game)
    (hf : inp.fresh = some ⟨InputKey.Down, InputType.Press⟩)
    (hh : inp.hitPending = false) :
    (s.game_state.ammo = 0 → (laser_tag_app_tick A inp s).1.game_state.ammo = A) ∧
    (s.game_state.ammo ≠ 0 → (laser_tag_app_tick A inp s).1.game_state = s.game_state) := by
  constructor
  · intro h0
    simp [laser_tag_app_tick, laser_tag_app_dispatch, laser_tag_app_loop_tail,
      game_state_get_ammo, game_state_increase_ammo, hf, hh, hst, h0]
    split_ifs <;> rfl
  · intro h0
    simp [laser_tag_app_tick, laser_tag_app_dispatch, laser_tag_app_loop_tail,
      game_state_get_ammo, hf, hh, hst, h0]
    split_ifs <;> rfl

/-- Witness for C6: firing with ammo already 0 still sends and leaves
ammo at 0. -/
theorem fire_debounce_and_saturating_ammo_witness :
    ((⟨LaserTagState.Game, ⟨100, 0, 0⟩, some ⟨false⟩, ⟨InputKey.Ok, InputType.Press⟩,
        false, true⟩ : AppState).state = LaserTagState.Game ∧
      (⟨LaserTagState.Game, ⟨100, 0, 0⟩, some ⟨false⟩, ⟨InputKey.Ok, InputType.Press⟩,
        false, true⟩ : AppState).ir_controller = some ⟨false⟩ ∧
      (⟨some ⟨InputKey.Ok, InputType.Press⟩, false, true, []⟩ : TickInput).fresh
        = some ⟨InputKey.Ok, InputType.Press⟩ ∧
      (⟨some ⟨InputKey.Ok, InputType.Press⟩, false, true, []⟩ : TickInput).hitPending = false ∧
      (⟨LaserTagState.Game, ⟨100, 0, 0⟩, some ⟨false⟩, ⟨InputKey.Ok, InputType.Press⟩,
        false, true⟩ : AppState).game_state.health ≠ 0 ∧
      (⟨false⟩ : IRController).processing_signal = false) ∧
    (Effect.irSend ∈ (laser_tag_app_tick 100
        ⟨some ⟨InputKey.Ok, InputType.Press⟩, false, true, []⟩
        ⟨LaserTagState.Game, ⟨100, 0, 0⟩, some ⟨false⟩, ⟨InputKey.Ok, InputType.Press⟩,
          false, true⟩).2 ∧
      (laser_tag_app_tick 100 ⟨some ⟨InputKey.Ok, InputType.Press⟩, false, true, []⟩
        ⟨LaserTagState.Game, ⟨100, 0, 0⟩, some ⟨false⟩, ⟨InputKey.Ok, InputType.Press⟩,
          false, true⟩).1.game_state.ammo = 0 - 1 ∧
      ((0 : Nat) = 0 → (laser_tag_app_tick 100
        ⟨some ⟨InputKey.Ok, InputType.Press⟩, false, true, []⟩
        ⟨LaserTagState.Game, ⟨100, 0, 0⟩, some ⟨false⟩, ⟨InputKey.Ok, InputType.Press⟩,
          false, true⟩).1.game_state.ammo = 0)) :=
  ⟨⟨rfl, rfl, rfl, rfl, by decide, rfl⟩,
    (fire_debounce_and_saturating_ammo 100
      ⟨LaserTagState.Game, ⟨100, 0, 0⟩, some ⟨false⟩, ⟨InputKey.Ok, InputType.Press⟩,
        false, true⟩
      ⟨false⟩ ⟨some ⟨InputKey.Ok, InputType.Press⟩, false, true, []⟩
      rfl rfl rfl rfl (by decide)).2 rfl⟩

/-- Witness for C7: a Down press at ammo 0 reloads to 100. -/
theorem down_reloads_only_when_empty_witness :
    ((⟨LaserTagState.Game, ⟨100, 0, 0⟩, some ⟨false⟩, ⟨InputKey.Down, InputType.Press⟩,
        false, true⟩ : AppState).state = LaserTagState.Game ∧
      (⟨some ⟨InputKey.Down, InputType.Press⟩, false, true, []⟩ : TickInput).fresh
        = some ⟨InputKey.Down, InputType.Press⟩ ∧
      (⟨some ⟨InputKey.Down, InputType.Press⟩, false, true, []⟩ : TickInput).hitPending = false ∧
      (⟨LaserTagState.Game, ⟨100, 0, 0⟩, some ⟨false⟩, ⟨InputKey.Down, InputType.Press⟩,
        false, true⟩ : AppState).game_state.ammo = 0) ∧
    (laser_tag_app_tick 100 ⟨some ⟨InputKey.Down, InputType.Press⟩, false, true, []⟩
        ⟨LaserTagState.Game, ⟨100, 0, 0⟩, some ⟨false⟩, ⟨InputKey.Down, InputType.Press⟩,
          false, true⟩).1.game_state.ammo = 100 :=
  ⟨⟨rfl, rfl, rfl, rfl⟩,
    (down_reloads_only_when_empty 100
      ⟨LaserTagState.Game, ⟨100, 0, 0⟩, some ⟨false⟩, ⟨InputKey.Down, InputType.Press⟩,
        false, true⟩
      ⟨some ⟨InputKey.Down, InputType.Press⟩, false, true, []⟩ rfl rfl rfl).1 rfl⟩

/-- C10: while the controller pointer is null (the splash screen before
the first game entry), `laser_tag_app_fire` is a guarded no-op, the tick
still begins with the unconditional `update_infrared_board_status` call
carrying the null pointer, and on a tick with no fresh input the hit
poll (`infrared_controller_receive`) is never called. -/
theorem null_controller_guarded_noops (A : Nat) (s : AppState) (inp : TickInput)
    (hir : s.ir_controller = none) (hst : s.state = LaserTagState.SplashScreen) :
    laser_tag_app_fire s = (s, []) ∧
    (laser_tag_app_tick A inp s).2.head? = some (Effect.boardStatus false) ∧
    (inp.fresh = none → Effect.irReceive ∉ (laser_tag_app_tick A inp s).2) := by
  refine ⟨?_, ?_, ?_⟩
  · simp [laser_tag_app_fire, hir]
  · simp [laser_tag_app_tick, hir]
  · intro hf
    simp [laser_tag_app_tick, laser_tag_app_loop_tail, hir, hst, hf]

/-- Witness for C10 on the initial splash state. -/
theorem null_controller_guarded_noops_witness :
    ((⟨LaserTagState.SplashScreen, ⟨100, 100, 0⟩, none, ⟨InputKey.Ok, InputType.Press⟩,
        true, true⟩ : AppState).ir_controller = none ∧
      (⟨LaserTagState.SplashScreen, ⟨100, 100, 0⟩, none, ⟨InputKey.Ok, InputType.Press⟩,
        true, true⟩ : AppState).state = LaserTagState.SplashScreen ∧
      (⟨none, false, true, []⟩ : TickInput).fresh = none) ∧
    (laser_tag_app_fire ⟨LaserTagState.SplashScreen, ⟨100, 100, 0⟩, none,
        ⟨InputKey.Ok, InputType.Press⟩, true, true⟩
      = (⟨LaserTagState.SplashScreen, ⟨100, 100, 0⟩, none,
          ⟨InputKey.Ok, InputType.Press⟩, true, true⟩, []) ∧
      (laser_tag_app_tick 100 ⟨none, false, true, []⟩
          ⟨LaserTagState.SplashScreen, ⟨100, 100, 0⟩, none,
            ⟨InputKey.Ok, InputType.Press⟩, true, true⟩).2.head?
        = some (Effect.boardStatus false) ∧
      Effect.irReceive ∉ (laser_tag_app_tick 100 ⟨none, false, true, []⟩
          ⟨LaserTagState.SplashScreen, ⟨100, 100, 0⟩, none,
            ⟨InputKey.Ok, InputType.Press⟩, true, true⟩).2) :=
  ⟨⟨rfl, rfl, rfl⟩,
    (null_controller_guarded_noops 100
      ⟨LaserTagState.SplashScreen, ⟨100, 100, 0⟩, none, ⟨InputKey.Ok, InputType.Press⟩,
        true, true⟩ ⟨none, false, true, []⟩ rfl rfl).1,
    (null_controller_guarded_noops 100
      ⟨LaserTagState.SplashScreen, ⟨100, 100, 0⟩, none, ⟨InputKey.Ok, InputType.Press⟩,
        true, true⟩ ⟨none, false, true, []⟩ rfl rfl).2.1,
    (null_controller_guarded_noops 100
      ⟨LaserTagState.SplashScreen, ⟨100, 100, 0⟩, none, ⟨InputKey.Ok, InputType.Press⟩,
        true, true⟩ ⟨none, false, true, []⟩ rfl rfl).2.2 rfl⟩

/-- C8: an Active-state Up press runs the scan window: beep, pause
infrared, start the reader, at most 30 polling intervals of 100 ms that
stop early once ammo changed, then always stop the reader and resume
infrared, finishing with the success sequence iff ammo changed and the
error sequence otherwise. -/
theorem up_scan_window_bounded_and_restores (A : Nat) (s : AppState) (c : IRController)
    (inp : TickInput) (hst : s.state = LaserTagState.Game)
    (hir : s.ir_controller = some c)
    (hf : inp.fresh = some ⟨InputKey.Up, InputType.Press⟩)
    (hh : inp.hitPending = false) (hhp : s.game_state.health ≠ 0) :
    (scan_loop A (game_state_get_ammo s.game_state) 30 inp.scanTags s.game_state).2 ≤ 30 ∧
    ((scan_loop A (game_state_get_ammo s.game_state) 30 inp.scanTags s.game_state).2 < 30 →
      game_state_get_ammo
          (scan_loop A (game_state_get_ammo s.game_state) 30 inp.scanTags s.game_state).1
        ≠ game_state_get_ammo s.game_state) ∧
    (laser_tag_app_tick A inp s).2
      = [Effect.boardStatus true, Effect.notif NotifSeq.shortBeep, Effect.irPause,
          Effect.readerStart]
        ++ List.replicate
            (scan_loop A (game_state_get_ammo s.game_state) 30 inp.scanTags s.game_state).2
            (Effect.delayMs 100)
        ++ [Effect.readerStop, Effect.irResume,
            Effect.notif
              (if game_state_get_ammo
                    (scan_loop A (game_state_get_ammo s.game_state) 30 inp.scanTags
                      s.game_state).1
                  = game_state_get_ammo s.game_state
                then NotifSeq.error else NotifSeq.success),
            Effect.irReceive] ∧
    (laser_tag_app_tick A inp s).1.game_state
      = (scan_loop A (game_state_get_ammo s.game_state) 30 inp.scanTags s.game_state).1 ∧
    (Effect.notif NotifSeq.success ∈ (laser_tag_app_tick A inp s).2 ↔
      game_state_get_ammo
          (scan_loop A (game_state_get_ammo s.game_state) 30 inp.scanTags s.game_state).1
        ≠ game_state_get_ammo s.game_state) := by
  have hhealth :=
    scan_loop_health A (game_state_get_ammo s.game_state) 30 inp.scanTags s.game_state
  have htrace : (laser_tag_app_tick A inp s).2
      = [Effect.boardStatus true, Effect.notif NotifSeq.shortBeep, Effect.irPause,
          Effect.readerStart]
        ++ List.replicate
            (scan_loop A (game_state_get_ammo s.game_state) 30 inp.scanTags s.game_state).2
            (Effect.delayMs 100)
        ++ [Effect.readerStop, Effect.irResume,
            Effect.notif
              (if game_state_get_ammo
                    (scan_loop A (game_state_get_ammo s.game_state) 30 inp.scanTags
                      s.game_state).1
                  = game_state_get_ammo s.game_state
                then NotifSeq.error else NotifSeq.success),
            Effect.irReceive] := by
    simp [laser_tag_app_tick, laser_tag_app_dispatch, laser_tag_app_loop_tail,
      game_state_is_game_over, hf, hh, hst, hir, hhealth, hhp]
  have hgs : (laser_tag_app_tick A inp s).1.game_state
      = (scan_loop A (game_state_get_ammo s.game_state) 30 inp.scanTags s.game_state).1 := by
    simp [laser_tag_app_tick, laser_tag_app_dispatch, laser_tag_app_loop_tail,
      game_state_is_game_over, hf, hh, hst, hir, hhealth, hhp]
  refine ⟨scan_loop_count_le A _ 30 inp.scanTags s.game_state,
    fun hlt => scan_loop_early_change A _ 30 inp.scanTags s.game_state hlt,
    htrace, hgs, ?_⟩
  rw [htrace]
  by_cases hch : game_state_get_ammo
      (scan_loop A (game_state_get_ammo s.game_state) 30 inp.scanTags s.game_state).1
    = game_state_get_ammo s.game_state
  · simp [hch, List.mem_append, List.mem_replicate]
  · simp [hch, List.mem_append, List.mem_replicate]

/-- Witness for C8: a scan window during which a refill tag arrives in
the first interval ends early and reports success. -/
theorem up_scan_window_bounded_and_restores_witness :
    ((⟨LaserTagState.Game, ⟨100, 50, 0⟩, some ⟨false⟩, ⟨InputKey.Up, InputType.Press⟩,
        false, true⟩ : AppState).state = LaserTagState.Game ∧
      (⟨LaserTagState.Game, ⟨100, 50, 0⟩, some ⟨false⟩, ⟨InputKey.Up, InputType.Press⟩,
        false, true⟩ : AppState).ir_controller = some ⟨false⟩ ∧
      (⟨some ⟨InputKey.Up, InputType.Press⟩, false, true,
        [[[19, 55, 0, 253, 5]]]⟩ : TickInput).fresh = some ⟨InputKey.Up, InputType.Press⟩ ∧
      (⟨some ⟨InputKey.Up, InputType.Press⟩, false, true,
        [[[19, 55, 0, 253, 5]]]⟩ : TickInput).hitPending = false ∧
      (⟨LaserTagState.Game, ⟨100, 50, 0⟩, some ⟨false⟩, ⟨InputKey.Up, InputType.Press⟩,
        false, true⟩ : AppState).game_state.health ≠ 0) ∧
    (scan_loop 100 50 30 [[[19, 55, 0, 253, 5]]] ⟨100, 50, 0⟩).2 ≤ 30 ∧
    (Effect.notif NotifSeq.success ∈ (laser_tag_app_tick 100
        ⟨some ⟨InputKey.Up, InputType.Press⟩, false, true, [[[19, 55, 0, 253, 5]]]⟩
        ⟨LaserTagState.Game, ⟨100, 50, 0⟩, some ⟨false⟩, ⟨InputKey.Up, InputType.Press⟩,
          false, true⟩).2 ↔
      game_state_get_ammo (scan_loop 100 50 30 [[[19, 55, 0, 253, 5]]] ⟨100, 50, 0⟩).1 ≠ 50) :=
  ⟨⟨rfl, rfl, rfl, rfl, by decide⟩,
    (up_scan_window_bounded_and_restores 100
      ⟨LaserTagState.Game, ⟨100, 50, 0⟩, some ⟨false⟩, ⟨InputKey.Up, InputType.Press⟩,
        false, true⟩
      ⟨false⟩ ⟨some ⟨InputKey.Up, InputType.Press⟩, false, true, [[[19, 55, 0, 253, 5]]]⟩
      rfl rfl rfl rfl (by decide)).1,
    (up_scan_window_bounded_and_restores 100
      ⟨LaserTagState.Game, ⟨100, 50, 0⟩, some ⟨false⟩, ⟨InputKey.Up, InputType.Press⟩,
        false, true⟩
      ⟨false⟩ ⟨some ⟨InputKey.Up, InputType.Press⟩, false, true, [[[19, 55, 0, 253, 5]]]⟩
      rfl rfl rfl rfl (by decide)).2.2.2.2⟩
